import Mathlib

/-!
The `_interpolate` extension module of scimath.

A shallow embedding of `scimath/interpolate/_interpolate.cpp`: the four
Python entry points `linear_method`, `loginterp_method`,
`window_average_method`, `block_average_above_method` and the method table
`interpolate_methods`.

The entry points are stateful C functions.  Each one is embedded as a pure
function from the call (positional and keyword arguments) to an `Outcome`:
the returned pointer, the pending exception, the contents stored in the
output buffer, and the ordered trace of the calls it makes on array objects
(`PyArray_FROMANY`, the core routine, `Py_DECREF`).

The element type of the arrays (C `double`) is a parameter `D`: the entry
points only move such values around.
-/

set_option autoImplicit false

namespace Interpolate

/-! ## Python objects, calls, errors -/

/-- The exception classes that reach the caller of an entry point. -/
inductive Exc
  | TypeError
  | ValueError
  | SystemError
  deriving DecidableEq

/-- The requirement flags the entry points pass to `PyArray_FROMANY`. -/
inductive ArrayFlags
  | NPY_ARRAY_IN_ARRAY
  | NPY_ARRAY_INOUT_ARRAY
  deriving DecidableEq

/-- A Python object, described by what the two library conversions used in
the file make of it: `asArray req` is the data of the array returned by
`PyArray_FROMANY(o, NPY_DOUBLE, 1, 1, req)` (`none` when it returns `NULL`),
and `asDouble` is the C double produced by the format unit `d`
(`none` when the unit raises `TypeError`). -/
structure PyObj (D : Type) where
  asArray : ArrayFlags → Option (List D)
  asDouble : Option D

/-- A call of an entry point: the positional tuple `args` and the keyword
dictionary `kywds` (a dictionary has each key once; `NULL` is the empty list). -/
structure Call (D : Type) where
  args : List (PyObj D)
  kywds : List (String × PyObj D)

/-- The error indicator on return.  `parse exc fname` is an exception raised
inside `PyArg_ParseTupleAndKeywords`, whose message names the function
`fname`; `setString exc msg` is `PyErr_SetString(exc, msg)`. -/
inductive PyErr
  | parse (exc : Exc) (fname : String)
  | setString (exc : Exc) (msg : String)
  deriving DecidableEq

/-! ## `PyArg_ParseTupleAndKeywords`

The CPython routine (`vgetargskeywords` in `Python/getargs.c`), restricted to
what the four format strings of the file use: the units `O` and `d`, all
required, followed by `:` and the function name. -/

/-- A value stored through one of the output pointers. -/
inductive Parsed (D : Type)
  | obj (o : PyObj D)
  | dbl (d : D)

/-- The format units: the characters before the end of the format
(`:` or `;`). -/
def formatUnits (format : String) : List Char :=
  format.toList.takeWhile (fun c => c != ':' && c != ';')

/-- The function name: what follows the first `:` of the format. -/
def formatFname (format : String) : String :=
  String.mk ((format.toList.dropWhile (fun c => c != ':')).drop 1)

/-- Conversion of one argument by one format unit (`convertitem`). -/
def convertitem {D : Type} (unit : Char) (o : PyObj D) : Except Exc (Parsed D) :=
  if unit = 'O' then Except.ok (Parsed.obj o)
  else if unit = 'd' then
    match o.asDouble with
    | some d => Except.ok (Parsed.dbl d)
    | none => Except.error Exc.TypeError
  else Except.error Exc.SystemError

/-- The main loop of `vgetargskeywords`: one iteration per keyword-list entry,
starting at index `i`.  The argument for entry `i` is the `i`-th positional
argument when there is one, otherwise the keyword argument of that name.
Returns the converted values and the format units left over. -/
def parseLoop {D : Type} (args : List (PyObj D)) (kywds : List (String × PyObj D)) :
    Nat → List String → List Char → Except Exc (List (Parsed D) × List Char)
  | _, [], units => Except.ok ([], units)
  | _, _ :: _, [] => Except.error Exc.SystemError
  | i, k :: ks, u :: us =>
    match (if i < args.length then args.get? i else kywds.lookup k) with
    | none => Except.error Exc.TypeError
    | some o =>
      match convertitem u o with
      | Except.error e => Except.error e
      | Except.ok v =>
        match parseLoop args kywds (i + 1) ks us with
        | Except.error e => Except.error e
        | Except.ok (vs, rest) => Except.ok (v :: vs, rest)

/-- Whether some keyword-list entry that was filled positionally is also
given by name. -/
def givenTwice {D : Type} (kwlist : List String) (call : Call D) : Bool :=
  (kwlist.take call.args.length).any (fun k => (call.kywds.lookup k).isSome)

/-- Whether some keyword of the call is not in the keyword list. -/
def extraneousKeyword {D : Type} (kwlist : List String) (call : Call D) : Bool :=
  call.kywds.any (fun kv => !(kwlist.contains kv.1))

/-- `PyArg_ParseTupleAndKeywords(args, kywds, format, kwlist, ...)`: the values
stored through the output pointers, or the exception raised.  The checks are
made in the order of `vgetargskeywords`: too many arguments (`TypeError`), the
conversion loop, format units left over after the last keyword-list entry
(`SystemError`), an argument given by name and position, an unknown keyword
(both `TypeError`). -/
def PyArg_ParseTupleAndKeywords {D : Type} (format : String) (kwlist : List String)
    (call : Call D) : Except PyErr (List (Parsed D)) :=
  let fname := formatFname format
  if call.args.length + call.kywds.length > kwlist.length then
    Except.error (PyErr.parse Exc.TypeError fname)
  else
    match parseLoop call.args call.kywds 0 kwlist (formatUnits format) with
    | Except.error e => Except.error (PyErr.parse e fname)
    | Except.ok (vals, rest) =>
      if rest ≠ [] then Except.error (PyErr.parse Exc.SystemError fname)
      else if givenTwice kwlist call then Except.error (PyErr.parse Exc.TypeError fname)
      else if extraneousKeyword kwlist call then
        Except.error (PyErr.parse Exc.TypeError fname)
      else Except.ok vals

/-! ## Outcomes and traces -/

/-- The four array parameters, in the order the entry points convert them. -/
inductive Param
  | x
  | y
  | new_x
  | new_y
  deriving DecidableEq

/-- The parameter name as it appears in the keyword list and the messages. -/
def Param.name : Param → String
  | Param.x => "x"
  | Param.y => "y"
  | Param.new_x => "new_x"
  | Param.new_y => "new_y"

/-- Position of a parameter in the conversion order. -/
def Param.index : Param → Nat
  | Param.x => 0
  | Param.y => 1
  | Param.new_x => 2
  | Param.new_y => 3

/-- The core routines declared in `interpolate.h`. -/
inductive Routine
  | linear
  | loginterp
  | window_average
  | block_average_above
  deriving DecidableEq

/-- What an entry point does to array objects, in program order. -/
inductive Event (D : Type)
  | fromAny (p : Param) (ok : Bool)
  | core (r : Routine) (x y : List D) (n : Nat) (new_x new_y : List D) (m : Nat)
      (width : Option D)
  | decref (p : Param)

/-- The pointer an entry point returns. -/
inductive PyRet
  | NULL
  | None
  deriving DecidableEq

/-- The observable result of one call of an entry point: returned pointer,
error indicator, trace, and the contents the core routine stored in the
buffer of `arr_new_y` (`none` when no core routine ran). -/
structure Outcome (D : Type) where
  ret : PyRet
  err : Option PyErr
  trace : List (Event D)
  out : Option (List D)

/-- A core routine `f(x, y, n, new_x, new_y, m)`: the contents of the buffer
`new_y` when it returns. -/
abbrev CoreFn (D : Type) := List D → List D → Nat → List D → List D → Nat → List D

/-- The core routine `window_average(x, y, n, new_x, new_y, m, width)`. -/
abbrev CoreFnW (D : Type) := List D → List D → Nat → List D → List D → Nat → D → List D

/-- Is the event a call of a core routine? -/
def Event.isCore {D : Type} : Event D → Bool
  | Event.core _ _ _ _ _ _ _ _ => true
  | _ => false

/-- Is the event a call of `PyArray_FROMANY` on parameter `p`? -/
def Event.isFromAny {D : Type} (p : Param) : Event D → Bool
  | Event.fromAny q _ => decide (q = p)
  | _ => false

/-- Is the event a successful `PyArray_FROMANY` on parameter `p`
(a new reference stored in `arr_p`)? -/
def Event.isObtain {D : Type} (p : Param) : Event D → Bool
  | Event.fromAny q ok => decide (q = p) && ok
  | _ => false

/-- Is the event the release of the reference held in `arr_p`? -/
def Event.isRelease {D : Type} (p : Param) : Event D → Bool
  | Event.decref q => decide (q = p)
  | _ => false

/-! ## The entry points -/

/-- `PyArray_FROMANY(o, NPY_DOUBLE, 1, 1, req)`. -/
def PyArray_FROMANY {D : Type} (o : PyObj D) (req : ArrayFlags) : Option (List D) :=
  o.asArray req

/-- `Py_XDECREF(arr_p)`: releases the reference unless the pointer is `NULL`. -/
def Py_XDECREF {D : Type} (p : Param) : Option (List D) → List (Event D)
  | none => []
  | some _ => [Event.decref p]

/-- The code reached by `goto fail` after `PyErr_SetString(PyExc_ValueError, msg)`:
the four `Py_XDECREF` and `return NULL`.  `tr` is the trace so far. -/
def fail_exit {D : Type} (tr : List (Event D)) (msg : String)
    (arr_x arr_y arr_new_x arr_new_y : Option (List D)) : Outcome D :=
  { ret := PyRet.NULL
    err := some (PyErr.setString Exc.ValueError msg)
    trace := tr ++ (Py_XDECREF Param.x arr_x ++ (Py_XDECREF Param.y arr_y ++
      (Py_XDECREF Param.new_x arr_new_x ++ Py_XDECREF Param.new_y arr_new_y)))
    out := none }

/-- The four conversions (lines 37-59, repeated verbatim at 96-118, 156-178
and 215-237): either the outcome of the `fail` path or the four arrays. -/
def convert_arrays {D : Type} (py_x py_y py_new_x py_new_y : PyObj D) :
    Except (Outcome D) (List D × List D × List D × List D) :=
  match PyArray_FROMANY py_x ArrayFlags.NPY_ARRAY_IN_ARRAY with
  | none =>
    Except.error (fail_exit [Event.fromAny Param.x false]
      "x must be a 1-D array of floats" none none none none)
  | some arr_x =>
    match PyArray_FROMANY py_y ArrayFlags.NPY_ARRAY_IN_ARRAY with
    | none =>
      Except.error (fail_exit [Event.fromAny Param.x true, Event.fromAny Param.y false]
        "y must be a 1-D array of floats" (some arr_x) none none none)
    | some arr_y =>
      match PyArray_FROMANY py_new_x ArrayFlags.NPY_ARRAY_IN_ARRAY with
      | none =>
        Except.error (fail_exit [Event.fromAny Param.x true, Event.fromAny Param.y true,
            Event.fromAny Param.new_x false]
          "new_x must be a 1-D array of floats" (some arr_x) (some arr_y) none none)
      | some arr_new_x =>
        match PyArray_FROMANY py_new_y ArrayFlags.NPY_ARRAY_INOUT_ARRAY with
        | none =>
          Except.error (fail_exit [Event.fromAny Param.x true, Event.fromAny Param.y true,
              Event.fromAny Param.new_x true, Event.fromAny Param.new_y false]
            "new_y must be a 1-D array of floats" (some arr_x) (some arr_y)
            (some arr_new_x) none)
        | some arr_new_y => Except.ok (arr_x, arr_y, arr_new_x, arr_new_y)

/-- The path from the core call to `Py_RETURN_NONE`: the core routine `r` is
called with `n = PyArray_DIM(arr_x, 0)` and `m = PyArray_DIM(arr_new_x, 0)`,
it leaves `result` in the buffer of `arr_new_y`, then the four references are
released. -/
def call_core {D : Type} (r : Routine) (arr_x arr_y arr_new_x arr_new_y : List D)
    (width : Option D) (result : List D) : Outcome D :=
  { ret := PyRet.None
    err := none
    trace := [Event.fromAny Param.x true, Event.fromAny Param.y true,
      Event.fromAny Param.new_x true, Event.fromAny Param.new_y true,
      Event.core r arr_x arr_y arr_x.length arr_new_x arr_new_y arr_new_x.length width,
      Event.decref Param.x, Event.decref Param.y, Event.decref Param.new_x,
      Event.decref Param.new_y]
    out := some result }

/-- The early `return NULL` when argument parsing fails: nothing was converted. -/
def parse_failed {D : Type} (e : PyErr) : Outcome D :=
  { ret := PyRet.NULL, err := some e, trace := [], out := none }

/-- The keyword list, the same array in all four entry points. -/
def kwlist : List String := ["x", "y", "new_x", "new_y"]

/-- The format string of `linear_method`. -/
def linear_method_format : String := "OOOO:linear_dddd"

/-- The format string of `loginterp_method`. -/
def loginterp_method_format : String := "OOOO:loginterp_dddd"

/-- The format string of `window_average_method`. -/
def window_average_method_format : String := "OOOOd:loginterp_dddd"

/-- The format string of `block_average_above_method`. -/
def block_average_above_method_format : String := "OOOO:loginterp_dddd"

/-- Lines 37-80 of `linear_method`: what follows a successful parse. -/
def linear_method_parsed {D : Type} (linear : CoreFn D)
    (py_x py_y py_new_x py_new_y : PyObj D) : Outcome D :=
  match convert_arrays py_x py_y py_new_x py_new_y with
  | Except.error o => o
  | Except.ok (arr_x, arr_y, arr_new_x, arr_new_y) =>
    call_core Routine.linear arr_x arr_y arr_new_x arr_new_y none
      (linear arr_x arr_y arr_x.length arr_new_x arr_new_y arr_new_x.length)

/-- The entry point `linear_method`.  The last case (values that do not fit
the output pointers) cannot arise from the parser. -/
def linear_method {D : Type} (linear : CoreFn D) (call : Call D) : Outcome D :=
  match PyArg_ParseTupleAndKeywords linear_method_format kwlist call with
  | Except.error e => parse_failed e
  | Except.ok [Parsed.obj py_x, Parsed.obj py_y, Parsed.obj py_new_x, Parsed.obj py_new_y] =>
    linear_method_parsed linear py_x py_y py_new_x py_new_y
  | Except.ok _ =>
    parse_failed (PyErr.parse Exc.SystemError (formatFname linear_method_format))

/-- Lines 96-139 of `loginterp_method`. -/
def loginterp_method_parsed {D : Type} (loginterp : CoreFn D)
    (py_x py_y py_new_x py_new_y : PyObj D) : Outcome D :=
  match convert_arrays py_x py_y py_new_x py_new_y with
  | Except.error o => o
  | Except.ok (arr_x, arr_y, arr_new_x, arr_new_y) =>
    call_core Routine.loginterp arr_x arr_y arr_new_x arr_new_y none
      (loginterp arr_x arr_y arr_x.length arr_new_x arr_new_y arr_new_x.length)

/-- The entry point `loginterp_method`. -/
def loginterp_method {D : Type} (loginterp : CoreFn D) (call : Call D) : Outcome D :=
  match PyArg_ParseTupleAndKeywords loginterp_method_format kwlist call with
  | Except.error e => parse_failed e
  | Except.ok [Parsed.obj py_x, Parsed.obj py_y, Parsed.obj py_new_x, Parsed.obj py_new_y] =>
    loginterp_method_parsed loginterp py_x py_y py_new_x py_new_y
  | Except.ok _ =>
    parse_failed (PyErr.parse Exc.SystemError (formatFname loginterp_method_format))

/-- Lines 156-199 of `window_average_method`. -/
def window_average_method_parsed {D : Type} (window_average : CoreFnW D)
    (py_x py_y py_new_x py_new_y : PyObj D) (width : D) : Outcome D :=
  match convert_arrays py_x py_y py_new_x py_new_y with
  | Except.error o => o
  | Except.ok (arr_x, arr_y, arr_new_x, arr_new_y) =>
    call_core Routine.window_average arr_x arr_y arr_new_x arr_new_y (some width)
      (window_average arr_x arr_y arr_x.length arr_new_x arr_new_y arr_new_x.length width)

/-- The entry point `window_average_method`: five format units, parsed
against the four-entry keyword list. -/
def window_average_method {D : Type} (window_average : CoreFnW D) (call : Call D) :
    Outcome D :=
  match PyArg_ParseTupleAndKeywords window_average_method_format kwlist call with
  | Except.error e => parse_failed e
  | Except.ok [Parsed.obj py_x, Parsed.obj py_y, Parsed.obj py_new_x, Parsed.obj py_new_y,
      Parsed.dbl width] =>
    window_average_method_parsed window_average py_x py_y py_new_x py_new_y width
  | Except.ok _ =>
    parse_failed (PyErr.parse Exc.SystemError (formatFname window_average_method_format))

/-- Lines 215-258 of `block_average_above_method`. -/
def block_average_above_method_parsed {D : Type} (block_average_above : CoreFn D)
    (py_x py_y py_new_x py_new_y : PyObj D) : Outcome D :=
  match convert_arrays py_x py_y py_new_x py_new_y with
  | Except.error o => o
  | Except.ok (arr_x, arr_y, arr_new_x, arr_new_y) =>
    call_core Routine.block_average_above arr_x arr_y arr_new_x arr_new_y none
      (block_average_above arr_x arr_y arr_x.length arr_new_x arr_new_y arr_new_x.length)

/-- The entry point `block_average_above_method`. -/
def block_average_above_method {D : Type} (block_average_above : CoreFn D)
    (call : Call D) : Outcome D :=
  match PyArg_ParseTupleAndKeywords block_average_above_method_format kwlist call with
  | Except.error e => parse_failed e
  | Except.ok [Parsed.obj py_x, Parsed.obj py_y, Parsed.obj py_new_x, Parsed.obj py_new_y] =>
    block_average_above_method_parsed block_average_above py_x py_y py_new_x py_new_y
  | Except.ok _ =>
    parse_failed (PyErr.parse Exc.SystemError (formatFname block_average_above_method_format))

/-- The entry points, as the method table refers to them. -/
inductive MethodId
  | linear_method
  | loginterp_method
  | window_average_method
  | block_average_above_method
  deriving DecidableEq

/-- The method table `interpolate_methods`: registered name and entry point. -/
def interpolate_methods : List (String × MethodId) :=
  [("linear_dddd", MethodId.linear_method),
   ("loginterp_dddd", MethodId.loginterp_method),
   ("window_average_ddddd", MethodId.window_average_method),
   ("block_average_above_dddd", MethodId.block_average_above_method)]

/-- The format string each entry point passes to the parser. -/
def MethodId.format : MethodId → String
  | MethodId.linear_method => linear_method_format
  | MethodId.loginterp_method => loginterp_method_format
  | MethodId.window_average_method => window_average_method_format
  | MethodId.block_average_above_method => block_average_above_method_format

/-- The core routines of `interpolate.h`, whose definitions the file does not
contain: parameters of the embedding. -/
structure Cores (D : Type) where
  linear : CoreFn D
  loginterp : CoreFn D
  window_average : CoreFnW D
  block_average_above : CoreFn D

/-- Calling an entry point through its method-table entry. -/
def MethodId.call {D : Type} (cores : Cores D) : MethodId → Call D → Outcome D
  | MethodId.linear_method => Interpolate.linear_method cores.linear
  | MethodId.loginterp_method => Interpolate.loginterp_method cores.loginterp
  | MethodId.window_average_method =>
    Interpolate.window_average_method cores.window_average
  | MethodId.block_average_above_method =>
    Interpolate.block_average_above_method cores.block_average_above

/-- The code of an entry point that follows a successful parse, given the
values of `py_x`, `py_y`, `py_new_x`, `py_new_y` and, for
`window_average_method`, of `width` (the other three have no such variable). -/
def MethodId.parsed {D : Type} (cores : Cores D) (m : MethodId)
    (py_x py_y py_new_x py_new_y : PyObj D) (width : D) : Outcome D :=
  match m with
  | MethodId.linear_method => linear_method_parsed cores.linear py_x py_y py_new_x py_new_y
  | MethodId.loginterp_method =>
    loginterp_method_parsed cores.loginterp py_x py_y py_new_x py_new_y
  | MethodId.window_average_method =>
    window_average_method_parsed cores.window_average py_x py_y py_new_x py_new_y width
  | MethodId.block_average_above_method =>
    block_average_above_method_parsed cores.block_average_above py_x py_y py_new_x py_new_y

/-- The values the parser stores for an entry point: the four objects, and
the width for `window_average_method`. -/
def MethodId.stored {D : Type} (m : MethodId) (py_x py_y py_new_x py_new_y : PyObj D)
    (width : D) : List (Parsed D) :=
  match m with
  | MethodId.window_average_method =>
    [Parsed.obj py_x, Parsed.obj py_y, Parsed.obj py_new_x, Parsed.obj py_new_y,
      Parsed.dbl width]
  | _ => [Parsed.obj py_x, Parsed.obj py_y, Parsed.obj py_new_x, Parsed.obj py_new_y]

/-! ## Vocabulary of the claims -/

/-- The core routine each entry point is meant to reach. -/
def MethodId.routine : MethodId → Routine
  | MethodId.linear_method => Routine.linear
  | MethodId.loginterp_method => Routine.loginterp
  | MethodId.window_average_method => Routine.window_average
  | MethodId.block_average_above_method => Routine.block_average_above

/-- The width argument a routine receives: only `window_average` has one. -/
def Routine.width {D : Type} (r : Routine) (width : D) : Option D :=
  match r with
  | Routine.window_average => some width
  | _ => none

/-- The buffer contents a routine of `cores` leaves in `new_y`. -/
def Cores.result {D : Type} (cores : Cores D) (r : Routine) (x y : List D) (n : Nat)
    (new_x new_y : List D) (m : Nat) (width : D) : List D :=
  match r with
  | Routine.linear => cores.linear x y n new_x new_y m
  | Routine.loginterp => cores.loginterp x y n new_x new_y m
  | Routine.window_average => cores.window_average x y n new_x new_y m width
  | Routine.block_average_above => cores.block_average_above x y n new_x new_y m

/-- The call returned `NULL` with an exception set. -/
def Outcome.reportsError {D : Type} (o : Outcome D) : Prop :=
  o.ret = PyRet.NULL ∧ o.err.isSome = true

/-- No core routine was invoked and nothing was stored in `new_y`. -/
def Outcome.coreNotInvoked {D : Type} (o : Outcome D) : Prop :=
  o.trace.any Event.isCore = false ∧ o.out = none

/-- The error is the `ValueError` that names parameter `p`, and no parameter
after `p` in the conversion order was handed to `PyArray_FROMANY`. -/
def Outcome.rejects {D : Type} (p : Param) (o : Outcome D) : Prop :=
  o.ret = PyRet.NULL ∧
  o.err = some (PyErr.setString Exc.ValueError (p.name ++ " must be a 1-D array of floats")) ∧
  ∀ q : Param, p.index < q.index → o.trace.any (Event.isFromAny q) = false

/-- Every reference obtained is released exactly once, and nothing else is
released: for each of `arr_x`, `arr_y`, `arr_new_x`, `arr_new_y` the trace has
as many releases as successful conversions, and at most one of these. -/
def Outcome.balanced {D : Type} (o : Outcome D) : Prop :=
  ∀ p : Param, o.trace.countP (Event.isRelease p) = o.trace.countP (Event.isObtain p) ∧
    o.trace.countP (Event.isObtain p) ≤ 1

/-- The call returned `None` without an exception, after exactly one call of a
core routine: routine `r` on the four arrays, with the length of `x` as sample
count, the length of `new_x` as query count and the width `w`, whose result
`res` is what the output buffer holds. -/
def Outcome.invokedOnce {D : Type} (r : Routine) (x y new_x new_y : List D)
    (w : Option D) (res : List D) (o : Outcome D) : Prop :=
  o.ret = PyRet.None ∧ o.err = none ∧
  o.trace.filter Event.isCore = [Event.core r x y x.length new_x new_y new_x.length w] ∧
  o.out = some res

/-- The first of `x`, `y`, `new_x`, `new_y`, in that order, that
`PyArray_FROMANY` rejects. -/
def firstRejected {D : Type} (py_x py_y py_new_x py_new_y : PyObj D) : Option Param :=
  if (PyArray_FROMANY py_x ArrayFlags.NPY_ARRAY_IN_ARRAY).isNone then some Param.x
  else if (PyArray_FROMANY py_y ArrayFlags.NPY_ARRAY_IN_ARRAY).isNone then some Param.y
  else if (PyArray_FROMANY py_new_x ArrayFlags.NPY_ARRAY_IN_ARRAY).isNone then
    some Param.new_x
  else if (PyArray_FROMANY py_new_y ArrayFlags.NPY_ARRAY_INOUT_ARRAY).isNone then
    some Param.new_y
  else none

/-- The references an entry point holds when the conversions are over: the
conversions are made in the order x, y, new_x, new_y and stop at the first one
that returns `NULL`, so `arr_p` holds a reference exactly when the object of
`p` and those of all parameters before it convert. -/
def obtained {D : Type} (py_x py_y py_new_x py_new_y : PyObj D) : Param → Bool
  | Param.x => (PyArray_FROMANY py_x ArrayFlags.NPY_ARRAY_IN_ARRAY).isSome
  | Param.y => (PyArray_FROMANY py_x ArrayFlags.NPY_ARRAY_IN_ARRAY).isSome &&
      (PyArray_FROMANY py_y ArrayFlags.NPY_ARRAY_IN_ARRAY).isSome
  | Param.new_x => (PyArray_FROMANY py_x ArrayFlags.NPY_ARRAY_IN_ARRAY).isSome &&
      (PyArray_FROMANY py_y ArrayFlags.NPY_ARRAY_IN_ARRAY).isSome &&
      (PyArray_FROMANY py_new_x ArrayFlags.NPY_ARRAY_IN_ARRAY).isSome
  | Param.new_y => (PyArray_FROMANY py_x ArrayFlags.NPY_ARRAY_IN_ARRAY).isSome &&
      (PyArray_FROMANY py_y ArrayFlags.NPY_ARRAY_IN_ARRAY).isSome &&
      (PyArray_FROMANY py_new_x ArrayFlags.NPY_ARRAY_IN_ARRAY).isSome &&
      (PyArray_FROMANY py_new_y ArrayFlags.NPY_ARRAY_INOUT_ARRAY).isSome

/-- The trace releases exactly the references in `held`, each once and after
it was obtained: for every parameter `p` the numbers of successful conversions
and of releases of `arr_p` are both 1 when `held p` and 0 otherwise, and when
`held p` the release comes after the conversion. -/
def Outcome.releasesExactly {D : Type} (held : Param → Bool) (o : Outcome D) : Prop :=
  ∀ p : Param,
    o.trace.countP (Event.isObtain p) = (if held p then 1 else 0) ∧
    o.trace.countP (Event.isRelease p) = (if held p then 1 else 0) ∧
    (held p = true → List.Sublist [Event.fromAny p true, Event.decref p] o.trace)

/-- The object a call supplies for `width`: the fifth positional argument,
or else the keyword argument of that name. -/
def Call.width {D : Type} (call : Call D) : Option (PyObj D) :=
  match call.args.get? 4 with
  | some o => some o
  | none => call.kywds.lookup "width"

/-! ## C doubles -/

/-- An IEEE 754 binary64 value, by its sign, biased exponent and fraction
fields. -/
structure Double where
  sign : Bool
  exponent : Fin 2048
  fraction : Fin 4503599627370496
  deriving DecidableEq

/-- The value is a NaN: exponent field all ones, fraction not zero. -/
def Double.isNaN (d : Double) : Bool :=
  decide (d.exponent = 2047) && !decide (d.fraction = 0)

/-- The value is an infinity: exponent field all ones, fraction zero. -/
def Double.isInf (d : Double) : Bool :=
  decide (d.exponent = 2047) && decide (d.fraction = 0)

/-- The width of the call is NaN or infinite: the call supplies a width object
and the unit `d` turns it into a NaN or an infinity. -/
def Call.widthNotFinite (call : Call Double) : Prop :=
  ∃ o w, call.width = some o ∧ o.asDouble = some w ∧ (w.isNaN = true ∨ w.isInf = true)

/-! ## The linear resampler

`linear` is declared in `interpolate.h`, which is not part of the sources at
hand.  Doubles are idealised as rationals (no rounding). -/

/-- Modelled from the spec: the search for the bracketing interval of the core
routine `linear` (file `interpolate.h`, absent).  Section 4.1: "find the
bracketing interval [x_i, x_{i+1}] such that x_i ≤ q ≤ x_{i+1}"; the output is
"linear interpolation y_i + (y_{i+1}-y_i) * (q-x_i)/(x_{i+1}-x_i)", and
"if x_{i+1} == x_i (degenerate interval), define the result as y_i".  `none`
when no interval brackets `q`. -/
def linear_interval : List ℚ → List ℚ → ℚ → Option ℚ
  | x0 :: x1 :: xs, y0 :: y1 :: ys, q =>
    if x0 ≤ q ∧ q ≤ x1 then
      some (if x1 = x0 then y0 else y0 + (y1 - y0) * (q - x0) / (x1 - x0))
    else linear_interval (x1 :: xs) (y1 :: ys) q
  | _, _, _ => none

/-- Modelled from the spec: the value of the core routine `linear`
(`interpolate.h`, absent) for one query `q` over the samples `x`, `y`.
Section 4.1: "If q < x_0: output y_0", "If q > x_{n-1}: output y_{n-1}",
otherwise the bracketing interval; end of section 4: with n = 1 "every query
returns y_0", and n = 0 is an error, for which no output is written (`none`). -/
def linear_value (x y : List ℚ) (q : ℚ) : Option ℚ :=
  if x.length = 0 then none
  else if q < x.getD 0 0 then some (y.getD 0 0)
  else if x.getD (x.length - 1) 0 < q then some (y.getD (x.length - 1) 0)
  else if x.length = 1 then some (y.getD 0 0)
  else linear_interval x y q

/-- Modelled from the spec: the core routine `linear(x, y, n, new_x, new_y, m)`
of `interpolate.h` (absent).  Section 2: "each resampler fills new_y in one
pass"; slot `j < m` receives the value for `new_x[j]` computed from the first
`n` samples, a slot for which the spec defines no output keeps its content,
and slots from `m` on are not touched. -/
def linear (x y : List ℚ) (n : Nat) (new_x new_y : List ℚ) (m : Nat) : List ℚ :=
  (List.range m).map (fun j =>
      (linear_value (x.take n) (y.take n) (new_x.getD j 0)).getD (new_y.getD j 0))
    ++ new_y.drop m

/-! ## Concrete calls -/

/-- A Python object that converts to the 1-D double array `xs` (and is not a
number). -/
def arrayObj {D : Type} (xs : List D) : PyObj D :=
  { asArray := fun _ => some xs, asDouble := none }

/-- A Python float of value `d` (not convertible to a 1-D array). -/
def floatObj {D : Type} (d : D) : PyObj D :=
  { asArray := fun _ => none, asDouble := some d }

/-- The call `f(x, y, new_x, new_y)` with four arrays given positionally. -/
def arrayCall {D : Type} (x y new_x new_y : List D) : Call D :=
  { args := [arrayObj x, arrayObj y, arrayObj new_x, arrayObj new_y], kywds := [] }

/-- A routine that leaves the output buffer as it is.  It stands for a core
routine in a concrete call whose outcome does not depend on what the routine
computes. -/
def untouched {D : Type} : CoreFn D := fun _ _ _ _ new_y _ => new_y

/-- The same, with a width argument. -/
def untouchedW {D : Type} : CoreFnW D := fun _ _ _ _ new_y _ _ => new_y

/-- The routines used in the concrete calls: `linear` as modelled above; the
other three are not exercised by any of them. -/
def exampleCores : Cores ℚ :=
  { linear := linear, loginterp := untouched, window_average := untouchedW,
    block_average_above := untouched }

/-- Scenario 1 of the spec: x=[0,1,2,3], y=[0,10,20,30],
new_x=[-1,0.5,1.5,3.5], with a zeroed output buffer. -/
def scenario1 : Call ℚ :=
  arrayCall [0, 1, 2, 3] [0, 10, 20, 30] [-1, 1/2, 3/2, 7/2] [0, 0, 0, 0]

/-- A call whose `y` is shorter than `x` and whose `new_y` is longer than
`new_x`: x=[0,1], y=[5], new_x=[0], new_y=[0,0]. -/
def mismatchedCall : Call ℚ :=
  arrayCall [0, 1] [5] [0] [0, 0]

/-- A call with no samples: x=[], y=[], new_x=[1], new_y=[0]. -/
def emptyCall : Call ℚ :=
  arrayCall [] [] [1] [0]

/-- The call `window_average_ddddd(x, y, new_x, new_y, 2.0)` of scenario 3:
x=[0,1,2,3,4], y=[1,1,1,1,1], new_x=[2], new_y=[0], width=2. -/
def scenario3 : Call ℚ :=
  { args := [arrayObj [0, 1, 2, 3, 4], arrayObj [1, 1, 1, 1, 1], arrayObj [2],
      arrayObj [0], floatObj 2]
    kywds := [] }

/-- The same call with the width given by keyword. -/
def scenario3kw : Call ℚ :=
  { args := [arrayObj [0, 1, 2, 3, 4], arrayObj [1, 1, 1, 1, 1], arrayObj [2],
      arrayObj [0]]
    kywds := [("width", floatObj 2)] }

/-- A call whose second argument is a float, not an array:
`f([0, 1], 3.0, [0], [0])`. -/
def badYCall : Call ℚ :=
  { args := [arrayObj [0, 1], floatObj 3, arrayObj [0], arrayObj [0]], kywds := [] }

/-- The call `f()` without arguments. -/
def noArgs : Call ℚ := { args := [], kywds := [] }

/-- A quiet NaN. -/
def nanValue : Double := { sign := false, exponent := 2047, fraction := 1 }

/-- The double 0.0. -/
def zeroValue : Double := { sign := false, exponent := 0, fraction := 0 }

/-- The double 1.0. -/
def oneValue : Double := { sign := false, exponent := 1023, fraction := 0 }

/-- The call `window_average_ddddd([0.0, 1.0], [1.0, 1.0], [0.0], [0.0], nan)`. -/
def nanWidthCall : Call Double :=
  { args := [arrayObj [zeroValue, oneValue], arrayObj [oneValue, oneValue],
      arrayObj [zeroValue], arrayObj [zeroValue], floatObj nanValue]
    kywds := [] }

/-! ## Lemmas on the shared blocks -/

theorem convert_arrays_ok {D : Type} {py_x py_y py_new_x py_new_y : PyObj D}
    {x y new_x new_y : List D}
    (hx : PyArray_FROMANY py_x ArrayFlags.NPY_ARRAY_IN_ARRAY = some x)
    (hy : PyArray_FROMANY py_y ArrayFlags.NPY_ARRAY_IN_ARRAY = some y)
    (hnx : PyArray_FROMANY py_new_x ArrayFlags.NPY_ARRAY_IN_ARRAY = some new_x)
    (hny : PyArray_FROMANY py_new_y ArrayFlags.NPY_ARRAY_INOUT_ARRAY = some new_y) :
    convert_arrays py_x py_y py_new_x py_new_y = Except.ok (x, y, new_x, new_y) := by
  simp [convert_arrays, hx, hy, hnx, hny]

theorem parsed_ok {D : Type} (cores : Cores D) (m : MethodId)
    {py_x py_y py_new_x py_new_y : PyObj D} (width : D) {x y new_x new_y : List D}
    (hx : PyArray_FROMANY py_x ArrayFlags.NPY_ARRAY_IN_ARRAY = some x)
    (hy : PyArray_FROMANY py_y ArrayFlags.NPY_ARRAY_IN_ARRAY = some y)
    (hnx : PyArray_FROMANY py_new_x ArrayFlags.NPY_ARRAY_IN_ARRAY = some new_x)
    (hny : PyArray_FROMANY py_new_y ArrayFlags.NPY_ARRAY_INOUT_ARRAY = some new_y) :
    m.parsed cores py_x py_y py_new_x py_new_y width =
      call_core m.routine x y new_x new_y (m.routine.width width)
        (cores.result m.routine x y x.length new_x new_y new_x.length width) := by
  cases m <;>
    simp [MethodId.parsed, linear_method_parsed, loginterp_method_parsed,
      window_average_method_parsed, block_average_above_method_parsed,
      convert_arrays_ok hx hy hnx hny, MethodId.routine, Routine.width, Cores.result]

theorem parsed_error {D : Type} (cores : Cores D) (m : MethodId)
    {py_x py_y py_new_x py_new_y : PyObj D} (width : D) {o : Outcome D}
    (h : convert_arrays py_x py_y py_new_x py_new_y = Except.error o) :
    m.parsed cores py_x py_y py_new_x py_new_y width = o := by
  cases m <;>
    simp [MethodId.parsed, linear_method_parsed, loginterp_method_parsed,
      window_average_method_parsed, block_average_above_method_parsed, h]

theorem call_of_parse {D : Type} (cores : Cores D) (m : MethodId) (call : Call D)
    (py_x py_y py_new_x py_new_y : PyObj D) (width : D)
    (h : PyArg_ParseTupleAndKeywords m.format kwlist call
      = Except.ok (m.stored py_x py_y py_new_x py_new_y width)) :
    m.call cores call = m.parsed cores py_x py_y py_new_x py_new_y width := by
  cases m <;> simp only [MethodId.format, MethodId.stored] at h <;>
    simp only [MethodId.call, MethodId.parsed, linear_method, loginterp_method,
      window_average_method, block_average_above_method, h]

theorem parse_failed_balanced {D : Type} (e : PyErr) :
    (parse_failed e : Outcome D).balanced := by
  intro p
  simp [parse_failed]

theorem call_core_balanced {D : Type} (r : Routine) (x y new_x new_y : List D)
    (w : Option D) (res : List D) : (call_core r x y new_x new_y w res).balanced := by
  intro p
  cases p <;> simp [call_core, Event.isRelease, Event.isObtain, List.countP_cons]

theorem convert_arrays_error {D : Type} {py_x py_y py_new_x py_new_y : PyObj D}
    {o : Outcome D} (h : convert_arrays py_x py_y py_new_x py_new_y = Except.error o) :
    ∃ p, firstRejected py_x py_y py_new_x py_new_y = some p ∧ o.rejects p ∧
      o.reportsError ∧ o.coreNotInvoked ∧ o.balanced := by
  unfold convert_arrays at h
  cases hx : PyArray_FROMANY py_x ArrayFlags.NPY_ARRAY_IN_ARRAY with
  | none =>
    simp only [hx] at h
    injection h with h
    subst h
    refine ⟨Param.x, by simp [firstRejected, hx], ⟨rfl, rfl, ?_⟩, ⟨rfl, rfl⟩, ⟨rfl, rfl⟩, ?_⟩
    · intro q hq
      cases q <;> simp_all [Param.index, fail_exit, Py_XDECREF, Event.isFromAny]
    · intro p
      cases p <;> simp [fail_exit, Py_XDECREF, Event.isRelease, Event.isObtain, List.countP_cons]
  | some x =>
    cases hy : PyArray_FROMANY py_y ArrayFlags.NPY_ARRAY_IN_ARRAY with
    | none =>
      simp only [hx, hy] at h
      injection h with h
      subst h
      refine ⟨Param.y, by simp [firstRejected, hx, hy], ⟨rfl, rfl, ?_⟩, ⟨rfl, rfl⟩,
        ⟨rfl, rfl⟩, ?_⟩
      · intro q hq
        cases q <;> simp_all [Param.index, fail_exit, Py_XDECREF, Event.isFromAny]
      · intro p
        cases p <;>
          simp [fail_exit, Py_XDECREF, Event.isRelease, Event.isObtain, List.countP_cons]
    | some y =>
      cases hnx : PyArray_FROMANY py_new_x ArrayFlags.NPY_ARRAY_IN_ARRAY with
      | none =>
        simp only [hx, hy, hnx] at h
        injection h with h
        subst h
        refine ⟨Param.new_x, by simp [firstRejected, hx, hy, hnx], ⟨rfl, rfl, ?_⟩,
          ⟨rfl, rfl⟩, ⟨rfl, rfl⟩, ?_⟩
        · intro q hq
          cases q <;> simp_all [Param.index, fail_exit, Py_XDECREF, Event.isFromAny]
        · intro p
          cases p <;>
            simp [fail_exit, Py_XDECREF, Event.isRelease, Event.isObtain, List.countP_cons]
      | some new_x =>
        cases hny : PyArray_FROMANY py_new_y ArrayFlags.NPY_ARRAY_INOUT_ARRAY with
        | none =>
          simp only [hx, hy, hnx, hny] at h
          injection h with h
          subst h
          refine ⟨Param.new_y, by simp [firstRejected, hx, hy, hnx, hny], ⟨rfl, rfl, ?_⟩,
            ⟨rfl, rfl⟩, ⟨rfl, rfl⟩, ?_⟩
          · intro q hq
            cases q <;> simp_all [Param.index, fail_exit, Py_XDECREF, Event.isFromAny]
          · intro p
            cases p <;>
              simp [fail_exit, Py_XDECREF, Event.isRelease, Event.isObtain, List.countP_cons]
        | some new_y =>
          simp [hx, hy, hnx, hny] at h

theorem convert_arrays_ok_inv {D : Type} {py_x py_y py_new_x py_new_y : PyObj D}
    {x y new_x new_y : List D}
    (h : convert_arrays py_x py_y py_new_x py_new_y = Except.ok (x, y, new_x, new_y)) :
    PyArray_FROMANY py_x ArrayFlags.NPY_ARRAY_IN_ARRAY = some x ∧
    PyArray_FROMANY py_y ArrayFlags.NPY_ARRAY_IN_ARRAY = some y ∧
    PyArray_FROMANY py_new_x ArrayFlags.NPY_ARRAY_IN_ARRAY = some new_x ∧
    PyArray_FROMANY py_new_y ArrayFlags.NPY_ARRAY_INOUT_ARRAY = some new_y := by
  unfold convert_arrays at h
  cases hx : PyArray_FROMANY py_x ArrayFlags.NPY_ARRAY_IN_ARRAY <;>
  cases hy : PyArray_FROMANY py_y ArrayFlags.NPY_ARRAY_IN_ARRAY <;>
  cases hnx : PyArray_FROMANY py_new_x ArrayFlags.NPY_ARRAY_IN_ARRAY <;>
  cases hny : PyArray_FROMANY py_new_y ArrayFlags.NPY_ARRAY_INOUT_ARRAY <;>
  simp_all

theorem firstRejected_none_of_ok {D : Type} {py_x py_y py_new_x py_new_y : PyObj D}
    {x y new_x new_y : List D}
    (hx : PyArray_FROMANY py_x ArrayFlags.NPY_ARRAY_IN_ARRAY = some x)
    (hy : PyArray_FROMANY py_y ArrayFlags.NPY_ARRAY_IN_ARRAY = some y)
    (hnx : PyArray_FROMANY py_new_x ArrayFlags.NPY_ARRAY_IN_ARRAY = some new_x)
    (hny : PyArray_FROMANY py_new_y ArrayFlags.NPY_ARRAY_INOUT_ARRAY = some new_y) :
    firstRejected py_x py_y py_new_x py_new_y = none := by
  simp [firstRejected, hx, hy, hnx, hny]

/-- After a successful parse an entry point either takes the `fail` path, with
the properties of `convert_arrays_error`, or converts all four arrays. -/
theorem parsed_cases {D : Type} (cores : Cores D) (m : MethodId)
    (py_x py_y py_new_x py_new_y : PyObj D) (width : D) :
    (∃ p, firstRejected py_x py_y py_new_x py_new_y = some p ∧
      (m.parsed cores py_x py_y py_new_x py_new_y width).rejects p ∧
      (m.parsed cores py_x py_y py_new_x py_new_y width).reportsError ∧
      (m.parsed cores py_x py_y py_new_x py_new_y width).coreNotInvoked ∧
      (m.parsed cores py_x py_y py_new_x py_new_y width).balanced) ∨
    (∃ x y new_x new_y,
      PyArray_FROMANY py_x ArrayFlags.NPY_ARRAY_IN_ARRAY = some x ∧
      PyArray_FROMANY py_y ArrayFlags.NPY_ARRAY_IN_ARRAY = some y ∧
      PyArray_FROMANY py_new_x ArrayFlags.NPY_ARRAY_IN_ARRAY = some new_x ∧
      PyArray_FROMANY py_new_y ArrayFlags.NPY_ARRAY_INOUT_ARRAY = some new_y) := by
  cases h : convert_arrays py_x py_y py_new_x py_new_y with
  | error o =>
    left
    rw [parsed_error cores m width h]
    exact convert_arrays_error h
  | ok arrs =>
    right
    obtain ⟨x, y, new_x, new_y⟩ := arrs
    exact ⟨x, y, new_x, new_y, convert_arrays_ok_inv h⟩

/-- An entry point either returns at once because parsing failed, or ends in
one of the two ways of the code after the parse: the `fail` path of the
conversions, or the core call on the four converted arrays. -/
theorem call_cases {D : Type} (cores : Cores D) (m : MethodId) (call : Call D) :
    (∃ e, m.call cores call = parse_failed e) ∨
    (∃ py_x py_y py_new_x py_new_y,
      convert_arrays py_x py_y py_new_x py_new_y = Except.error (m.call cores call) ∨
      ∃ x y new_x new_y r w res,
        convert_arrays py_x py_y py_new_x py_new_y = Except.ok (x, y, new_x, new_y) ∧
        m.call cores call = call_core r x y new_x new_y w res) := by
  cases m
  · simp only [MethodId.call, linear_method]
    split
    · exact Or.inl ⟨_, rfl⟩
    · rename_i py_x py_y py_new_x py_new_y _
      refine Or.inr ⟨py_x, py_y, py_new_x, py_new_y, ?_⟩
      unfold linear_method_parsed
      cases h : convert_arrays py_x py_y py_new_x py_new_y with
      | error o => exact Or.inl rfl
      | ok arrs =>
        obtain ⟨x, y, new_x, new_y⟩ := arrs
        exact Or.inr ⟨x, y, new_x, new_y, _, _, _, rfl, rfl⟩
    · exact Or.inl ⟨_, rfl⟩
  · simp only [MethodId.call, loginterp_method]
    split
    · exact Or.inl ⟨_, rfl⟩
    · rename_i py_x py_y py_new_x py_new_y _
      refine Or.inr ⟨py_x, py_y, py_new_x, py_new_y, ?_⟩
      unfold loginterp_method_parsed
      cases h : convert_arrays py_x py_y py_new_x py_new_y with
      | error o => exact Or.inl rfl
      | ok arrs =>
        obtain ⟨x, y, new_x, new_y⟩ := arrs
        exact Or.inr ⟨x, y, new_x, new_y, _, _, _, rfl, rfl⟩
    · exact Or.inl ⟨_, rfl⟩
  · simp only [MethodId.call, window_average_method]
    split
    · exact Or.inl ⟨_, rfl⟩
    · rename_i py_x py_y py_new_x py_new_y width _
      refine Or.inr ⟨py_x, py_y, py_new_x, py_new_y, ?_⟩
      unfold window_average_method_parsed
      cases h : convert_arrays py_x py_y py_new_x py_new_y with
      | error o => exact Or.inl rfl
      | ok arrs =>
        obtain ⟨x, y, new_x, new_y⟩ := arrs
        exact Or.inr ⟨x, y, new_x, new_y, _, _, _, rfl, rfl⟩
    · exact Or.inl ⟨_, rfl⟩
  · simp only [MethodId.call, block_average_above_method]
    split
    · exact Or.inl ⟨_, rfl⟩
    · rename_i py_x py_y py_new_x py_new_y _
      refine Or.inr ⟨py_x, py_y, py_new_x, py_new_y, ?_⟩
      unfold block_average_above_method_parsed
      cases h : convert_arrays py_x py_y py_new_x py_new_y with
      | error o => exact Or.inl rfl
      | ok arrs =>
        obtain ⟨x, y, new_x, new_y⟩ := arrs
        exact Or.inr ⟨x, y, new_x, new_y, _, _, _, rfl, rfl⟩
    · exact Or.inl ⟨_, rfl⟩

/-! ## Lemmas on the parser -/

/-- The loop consumes one format unit per keyword-list entry. -/
theorem parseLoop_rest {D : Type} (args : List (PyObj D)) (kywds : List (String × PyObj D)) :
    ∀ (ks : List String) (i : Nat) (us : List Char) (vs : List (Parsed D)) (rest : List Char),
      parseLoop args kywds i ks us = Except.ok (vs, rest) → rest = us.drop ks.length := by
  intro ks
  induction ks with
  | nil =>
    intro i us vs rest h
    simp [parseLoop] at h
    simp [h.2]
  | cons k ks ih =>
    intro i us vs rest h
    cases us with
    | nil => simp [parseLoop] at h
    | cons u us =>
      simp only [parseLoop] at h
      split at h
      · simp at h
      · split at h
        · simp at h
        · split at h
          · simp at h
          · rename_i vs1 rest1 hrec
            simp only [Except.ok.injEq, Prod.mk.injEq] at h
            have := ih _ _ _ _ hrec
            simp [← h.2, this]

/-- Parsing the five-unit format of `window_average_method` against the
four-entry keyword list fails for every call. -/
theorem window_average_parse_fails {D : Type} (call : Call D) :
    ∃ e, PyArg_ParseTupleAndKeywords window_average_method_format kwlist call
      = Except.error (PyErr.parse e "loginterp_dddd") := by
  have hf : formatFname window_average_method_format = "loginterp_dddd" := by decide
  have hu : formatUnits window_average_method_format = ['O', 'O', 'O', 'O', 'd'] := by decide
  unfold PyArg_ParseTupleAndKeywords
  simp only [hf, hu]
  split
  · exact ⟨_, rfl⟩
  · split
    · exact ⟨_, rfl⟩
    · rename_i vals rest h
      have hr := parseLoop_rest _ _ _ _ _ _ _ h
      have : rest ≠ [] := by simp [hr, kwlist]
      simp only [this, ne_eq, not_false_eq_true, if_true]
      exact ⟨_, rfl⟩

theorem window_average_method_fails {D : Type} (window_average : CoreFnW D) (call : Call D) :
    ∃ e, window_average_method window_average call
      = parse_failed (PyErr.parse e "loginterp_dddd") := by
  obtain ⟨e, he⟩ := window_average_parse_fails call
  exact ⟨e, by simp only [window_average_method, he]⟩

/-- A keyword argument that is found is one of the keys of the dictionary. -/
theorem mem_keys_of_lookup {D : Type} (k : String) :
    ∀ (kywds : List (String × PyObj D)), (kywds.lookup k).isSome = true →
      k ∈ kywds.map Prod.fst
  | [], h => by simp at h
  | (a, b) :: es, h => by
    rw [List.lookup_cons] at h
    by_cases hk : k = a
    · simp [hk]
    · have hb : (k == a) = false := by simpa using hk
      rw [hb] at h
      simp only [List.map_cons, List.mem_cons]
      exact Or.inr (mem_keys_of_lookup k es h)

/-- When the loop succeeds, every keyword-list entry beyond the positional
arguments was found among the keyword arguments. -/
theorem parseLoop_found {D : Type} (args : List (PyObj D)) (kywds : List (String × PyObj D)) :
    ∀ (ks : List String) (i : Nat) (us : List Char) (r : List (Parsed D) × List Char),
      parseLoop args kywds i ks us = Except.ok r →
      ∀ k ∈ ks.drop (args.length - i), (kywds.lookup k).isSome = true := by
  intro ks
  induction ks with
  | nil => intro i us r _ k hk; simp at hk
  | cons k0 ks ih =>
    intro i us r h k hk
    cases us with
    | nil => simp [parseLoop] at h
    | cons u us =>
      simp only [parseLoop] at h
      split at h
      · simp at h
      · rename_i o ho
        split at h
        · simp at h
        · split at h
          · simp at h
          · rename_i vs1 rest1 hrec
            have ih' := ih (i + 1) us _ hrec
            by_cases hi : i < args.length
            · have e : args.length - i = (args.length - (i + 1)) + 1 := by omega
              rw [e, List.drop_succ_cons] at hk
              exact ih' k hk
            · have e : args.length - i = 0 := by omega
              have e' : args.length - (i + 1) = 0 := by omega
              rw [e, List.drop_zero, List.mem_cons] at hk
              rw [if_neg hi] at ho
              rcases hk with hk | hk
              · subst hk
                simp [ho]
              · rw [e', List.drop_zero] at ih'
                exact ih' k hk

/-- While only `O` units are consumed, the loop can fail only for a missing
argument. -/
theorem parseLoop_error {D : Type} (args : List (PyObj D)) (kywds : List (String × PyObj D)) :
    ∀ (ks : List String) (i : Nat) (us : List Char) (e : Exc),
      ks.length ≤ us.length → (∀ u ∈ us.take ks.length, u = 'O') →
      parseLoop args kywds i ks us = Except.error e → e = Exc.TypeError := by
  intro ks
  induction ks with
  | nil => intro i us e _ _ h; simp [parseLoop] at h
  | cons k0 ks ih =>
    intro i us e hl hu h
    cases us with
    | nil => simp at hl
    | cons u us =>
      have hu0 : u = 'O' := hu u (by simp)
      simp only [parseLoop] at h
      split at h
      · simpa using h.symm
      · split at h
        · rename_i e1 hc
          simp [convertitem, hu0] at hc
        · split at h
          · rename_i e1 hrec
            simp only [Except.error.injEq] at h
            subst h
            refine ih (i + 1) us _ (by simpa using hl) ?_ hrec
            intro u' hu'
            exact hu u' (by simp [List.take_succ_cons, hu'])
          · simp at h

/-- More distinct names than the dictionary has keys cannot all be found. -/
theorem keys_length_le {D : Type} (kywds : List (String × PyObj D)) (names : List String)
    (hn : names.Nodup) (hf : ∀ k ∈ names, (kywds.lookup k).isSome = true) :
    names.length ≤ kywds.length := by
  have hsub : names ⊆ kywds.map Prod.fst := fun k hk => mem_keys_of_lookup k kywds (hf k hk)
  have := (List.subperm_of_subset hn hsub).length_le
  simpa using this

/-- A call of `window_average_method` that supplies a width is rejected by the
parser with a `TypeError`. -/
theorem window_average_width_TypeError {D : Type} (call : Call D) (o : PyObj D)
    (hw : call.width = some o) :
    PyArg_ParseTupleAndKeywords window_average_method_format kwlist call
      = Except.error (PyErr.parse Exc.TypeError "loginterp_dddd") := by
  have hf : formatFname window_average_method_format = "loginterp_dddd" := by decide
  have hu : formatUnits window_average_method_format = ['O', 'O', 'O', 'O', 'd'] := by decide
  unfold PyArg_ParseTupleAndKeywords
  simp only [hf, hu]
  split
  · rfl
  · rename_i hle
    have hle' : call.args.length + call.kywds.length ≤ 4 := by
      simpa [kwlist] using hle
    -- the width is a keyword argument, since there is no fifth positional one
    have hkw : (call.kywds.lookup "width").isSome = true := by
      unfold Call.width at hw
      split at hw
      · rename_i o' ho'
        have : 4 < call.args.length := by
          by_contra hc
          rw [List.get?_eq_none.mpr (by omega)] at ho'
          cases ho'
        omega
      · simp [hw]
    split
    · rename_i e he
      have := parseLoop_error call.args call.kywds kwlist 0 _ e (by simp [kwlist])
        (by simp [kwlist]) he
      rw [this]
    · rename_i vals rest he
      exfalso
      have hfound := parseLoop_found call.args call.kywds kwlist 0 _ _ he
      have hnd : ("width" :: kwlist.drop (call.args.length - 0)).Nodup := by
        have h1 : kwlist.Nodup := by decide
        have h2 : "width" ∉ kwlist := by decide
        refine List.nodup_cons.mpr ⟨fun hmem => h2 (List.mem_of_mem_drop hmem), ?_⟩
        exact h1.sublist (List.drop_sublist _ _)
      have hall : ∀ k ∈ "width" :: kwlist.drop (call.args.length - 0),
          (call.kywds.lookup k).isSome = true := by
        intro k hk
        rcases List.mem_cons.mp hk with hk | hk
        · rw [hk]; exact hkw
        · exact hfound k hk
      have hlen := keys_length_le call.kywds _ hnd hall
      simp [kwlist] at hlen
      omega


/-- After a successful parse an entry point releases exactly the references
it obtained. -/
theorem parsed_releases {D : Type} (cores : Cores D) (m : MethodId)
    (py_x py_y py_new_x py_new_y : PyObj D) (width : D) :
    (m.parsed cores py_x py_y py_new_x py_new_y width).releasesExactly
      (obtained py_x py_y py_new_x py_new_y) := by
  cases hx : PyArray_FROMANY py_x ArrayFlags.NPY_ARRAY_IN_ARRAY with
  | none =>
    have hc : convert_arrays py_x py_y py_new_x py_new_y = Except.error
        (fail_exit [Event.fromAny Param.x false] "x must be a 1-D array of floats"
          none none none none) := by
      simp [convert_arrays, hx]
    rw [parsed_error cores m width hc]
    intro p
    cases p <;>
      simp [obtained, hx, fail_exit, Py_XDECREF, Event.isRelease, Event.isObtain,
        List.countP_cons]
  | some x =>
    cases hy : PyArray_FROMANY py_y ArrayFlags.NPY_ARRAY_IN_ARRAY with
    | none =>
      have hc : convert_arrays py_x py_y py_new_x py_new_y = Except.error
          (fail_exit [Event.fromAny Param.x true, Event.fromAny Param.y false]
            "y must be a 1-D array of floats" (some x) none none none) := by
        simp [convert_arrays, hx, hy]
      rw [parsed_error cores m width hc]
      intro p
      cases p <;>
        simp [obtained, hx, hy, fail_exit, Py_XDECREF, Event.isRelease, Event.isObtain,
          List.countP_cons]
    | some y =>
      cases hnx : PyArray_FROMANY py_new_x ArrayFlags.NPY_ARRAY_IN_ARRAY with
      | none =>
        have hc : convert_arrays py_x py_y py_new_x py_new_y = Except.error
            (fail_exit [Event.fromAny Param.x true, Event.fromAny Param.y true,
                Event.fromAny Param.new_x false]
              "new_x must be a 1-D array of floats" (some x) (some y) none none) := by
          simp [convert_arrays, hx, hy, hnx]
        rw [parsed_error cores m width hc]
        intro p
        cases p <;>
          simp [obtained, hx, hy, hnx, fail_exit, Py_XDECREF, Event.isRelease,
            Event.isObtain, List.countP_cons]
      | some new_x =>
        cases hny : PyArray_FROMANY py_new_y ArrayFlags.NPY_ARRAY_INOUT_ARRAY with
        | none =>
          have hc : convert_arrays py_x py_y py_new_x py_new_y = Except.error
              (fail_exit [Event.fromAny Param.x true, Event.fromAny Param.y true,
                  Event.fromAny Param.new_x true, Event.fromAny Param.new_y false]
                "new_y must be a 1-D array of floats" (some x) (some y) (some new_x)
                none) := by
            simp [convert_arrays, hx, hy, hnx, hny]
          rw [parsed_error cores m width hc]
          intro p
          cases p <;>
            simp [obtained, hx, hy, hnx, hny, fail_exit, Py_XDECREF, Event.isRelease,
              Event.isObtain, List.countP_cons]
        | some new_y =>
          rw [parsed_ok cores m width hx hy hnx hny]
          intro p
          cases p <;>
            (simp [obtained, hx, hy, hnx, hny, call_core, Event.isRelease, Event.isObtain,
              List.countP_cons]
             repeat (first | exact List.nil_sublist _ | apply List.Sublist.cons₂ |
              apply List.Sublist.cons))

/-- A parse failure is returned at once. -/
theorem call_parse_error {D : Type} (cores : Cores D) (m : MethodId) (call : Call D)
    (e : PyErr) (h : PyArg_ParseTupleAndKeywords m.format kwlist call = Except.error e) :
    m.call cores call = parse_failed e := by
  cases m <;> simp only [MethodId.format] at h <;>
    simp only [MethodId.call, linear_method, loginterp_method,
      window_average_method, block_average_above_method, h]

/-- For the three entry points without a width, a call that parses and whose
four objects convert ends in the core call. -/
theorem call_ok_three {D : Type} (cores : Cores D) (m : MethodId) (call : Call D)
    {py_x py_y py_new_x py_new_y : PyObj D} {x y new_x new_y : List D}
    (hm : m ≠ MethodId.window_average_method)
    (hp : PyArg_ParseTupleAndKeywords m.format kwlist call
      = Except.ok [Parsed.obj py_x, Parsed.obj py_y, Parsed.obj py_new_x, Parsed.obj py_new_y])
    (hx : PyArray_FROMANY py_x ArrayFlags.NPY_ARRAY_IN_ARRAY = some x)
    (hy : PyArray_FROMANY py_y ArrayFlags.NPY_ARRAY_IN_ARRAY = some y)
    (hnx : PyArray_FROMANY py_new_x ArrayFlags.NPY_ARRAY_IN_ARRAY = some new_x)
    (hny : PyArray_FROMANY py_new_y ArrayFlags.NPY_ARRAY_INOUT_ARRAY = some new_y) :
    ∃ res, m.call cores call = call_core m.routine x y new_x new_y none res := by
  cases m
  · simp only [MethodId.format] at hp
    exact ⟨cores.linear x y x.length new_x new_y new_x.length,
      by simp only [MethodId.call, linear_method, hp, linear_method_parsed,
        convert_arrays_ok hx hy hnx hny, MethodId.routine]⟩
  · simp only [MethodId.format] at hp
    exact ⟨cores.loginterp x y x.length new_x new_y new_x.length,
      by simp only [MethodId.call, loginterp_method, hp, loginterp_method_parsed,
        convert_arrays_ok hx hy hnx hny, MethodId.routine]⟩
  · exact absurd rfl hm
  · simp only [MethodId.format] at hp
    exact ⟨cores.block_average_above x y x.length new_x new_y new_x.length,
      by simp only [MethodId.call, block_average_above_method, hp,
        block_average_above_method_parsed, convert_arrays_ok hx hy hnx hny,
        MethodId.routine]⟩

/-! ## Lemmas on the linear resampler -/

/-- Strictly increasing samples are non-decreasing along the index. -/
theorem sorted_getD_le (x : List ℚ) (h : x.Pairwise (· < ·)) (i j : Nat) (hij : i ≤ j)
    (hj : j < x.length) : x.getD i 0 ≤ x.getD j 0 := by
  rw [List.getD_eq_getElem x 0 (lt_of_le_of_lt hij hj), List.getD_eq_getElem x 0 hj]
  rcases Nat.eq_or_lt_of_le hij with h1 | h1
  · subst h1; exact le_refl _
  · exact le_of_lt (List.pairwise_iff_getElem.mp h i j _ hj h1)

/-- Strictly increasing samples: a later index holds a larger abscissa. -/
theorem sorted_getD_lt (x : List ℚ) (h : x.Pairwise (· < ·)) (i j : Nat) (hij : i < j)
    (hj : j < x.length) : x.getD i 0 < x.getD j 0 := by
  rw [List.getD_eq_getElem x 0 (lt_trans hij hj), List.getD_eq_getElem x 0 hj]
  exact List.pairwise_iff_getElem.mp h i j _ hj hij

/-- On strictly increasing samples the scan returns the interpolation formula
of every interval that brackets the query. -/
theorem linear_interval_eq : ∀ (x y : List ℚ), y.length = x.length → x.Pairwise (· < ·) →
    ∀ (i : Nat) (q : ℚ), i + 1 < x.length → x.getD i 0 ≤ q → q ≤ x.getD (i + 1) 0 →
    linear_interval x y q = some (y.getD i 0 + (y.getD (i + 1) 0 - y.getD i 0)
      * (q - x.getD i 0) / (x.getD (i + 1) 0 - x.getD i 0))
  | [], _, _, _, _, _, hi, _, _ => by simp at hi
  | [_], _, _, _, _, _, hi, _, _ => by simp at hi
  | x0 :: x1 :: xs, [], hl, _, _, _, _, _, _ => by simp at hl
  | x0 :: x1 :: xs, [_], hl, _, _, _, _, _, _ => by simp at hl
  | x0 :: x1 :: xs, y0 :: y1 :: ys, hl, hs, i, q, hi, h1, h2 => by
    have h01 : x0 < x1 := by
      have := sorted_getD_lt _ hs 0 1 (by omega) (by simp)
      simpa using this
    have hne : x1 - x0 ≠ 0 := sub_ne_zero.mpr (ne_of_gt h01)
    have hs' : (x1 :: xs).Pairwise (· < ·) := (List.pairwise_cons.mp hs).2
    have hl' : (y1 :: ys).length = (x1 :: xs).length := by simpa using hl
    unfold linear_interval
    by_cases hc : x0 ≤ q ∧ q ≤ x1
    · rw [if_pos hc, if_neg (ne_of_gt h01)]
      cases i with
      | zero => simp
      | succ k =>
        -- the query sits on the sample x1, shared by both intervals
        have hk1 : x1 ≤ (x0 :: x1 :: xs).getD (k + 1) 0 := by
          have := sorted_getD_le _ hs 1 (k + 1) (by omega) (by omega)
          simpa using this
        have hq : q = x1 := le_antisymm hc.2 (le_trans hk1 h1)
        have hk : k = 0 := by
          by_contra hk
          have := sorted_getD_lt _ hs 1 (k + 1) (by omega) (by omega)
          simp only [List.getD_cons_succ, List.getD_cons_zero] at this
          have h1' := h1
          simp only [List.getD_cons_succ] at h1'
          rw [hq] at h1'
          exact absurd (lt_of_lt_of_le this h1') (lt_irrefl _)
        subst hk
        subst hq
        simp only [List.getD_cons_succ, List.getD_cons_zero]
        congr 1
        field_simp
    · rw [if_neg hc]
      cases i with
      | zero =>
        exfalso
        apply hc
        simpa using And.intro h1 h2
      | succ k =>
        have := linear_interval_eq (x1 :: xs) (y1 :: ys) hl' hs' k q
          (by simpa using hi) (by simpa using h1) (by simpa using h2)
        simpa using this

/-- A query inside the sampled range has a bracketing interval. -/
theorem exists_bracket : ∀ (x : List ℚ), 2 ≤ x.length → ∀ q : ℚ, x.getD 0 0 ≤ q →
    q ≤ x.getD (x.length - 1) 0 →
    ∃ i, i + 1 < x.length ∧ x.getD i 0 ≤ q ∧ q ≤ x.getD (i + 1) 0
  | [], h, _, _, _ => by simp at h
  | [_], h, _, _, _ => by simp at h
  | [x0, x1], _, q, h1, h2 => ⟨0, by simp, by simpa using h1, by simpa using h2⟩
  | x0 :: x1 :: x2 :: xs, _, q, h1, h2 => by
    by_cases hc : q ≤ x1
    · exact ⟨0, by simp, by simpa using h1, by simpa using hc⟩
    · obtain ⟨i, hi, ha, hb⟩ := exists_bracket (x1 :: x2 :: xs) (by simp) q
        (by simpa using le_of_lt (not_le.mp hc)) (by simpa using h2)
      exact ⟨i + 1, by simpa using hi, by simpa using ha, by simpa using hb⟩

/-- The routine does not resize a buffer of at most `m` slots. -/
theorem linear_length (x y : List ℚ) (n : Nat) (new_x new_y : List ℚ) (m : Nat)
    (h : new_y.length ≤ m) : (linear x y n new_x new_y m).length = m := by
  simp [linear, Nat.sub_eq_zero_of_le h]

/-- Slot `j < m` holds the value for query `j`, or its old content. -/
theorem linear_getD (x y : List ℚ) (n : Nat) (new_x new_y : List ℚ) (m j : Nat) (hj : j < m) :
    (linear x y n new_x new_y m).getD j 0
      = (linear_value (x.take n) (y.take n) (new_x.getD j 0)).getD (new_y.getD j 0) := by
  unfold linear
  rw [List.getD_append _ _ _ _ (by simpa using hj)]
  rw [List.getD_eq_getElem _ _ (by simpa using hj)]
  simp


/-- The value of the linear model on strictly increasing samples, n ≥ 2. -/
theorem linear_value_spec (x y : List ℚ) (q : ℚ) (hlen : y.length = x.length)
    (hn : 2 ≤ x.length) (hs : x.Pairwise (· < ·)) :
    (q < x.getD 0 0 → linear_value x y q = some (y.getD 0 0)) ∧
    (x.getD (x.length - 1) 0 < q → linear_value x y q = some (y.getD (x.length - 1) 0)) ∧
    (∀ i, i + 1 < x.length → x.getD i 0 ≤ q → q ≤ x.getD (i + 1) 0 →
      linear_value x y q = some (y.getD i 0 + (y.getD (i + 1) 0 - y.getD i 0)
        * (q - x.getD i 0) / (x.getD (i + 1) 0 - x.getD i 0))) := by
  have h0 : x.length ≠ 0 := by omega
  have h1 : x.length ≠ 1 := by omega
  have hfl : x.getD 0 0 ≤ x.getD (x.length - 1) 0 :=
    sorted_getD_le x hs 0 (x.length - 1) (by omega) (by omega)
  refine ⟨?_, ?_, ?_⟩
  · intro hq
    simp only [linear_value, h0, if_false, if_pos hq]
  · intro hq
    have hlo : ¬ q < x.getD 0 0 := not_lt.mpr (le_trans hfl (le_of_lt hq))
    simp only [linear_value, h0, hlo, if_false, if_pos hq]
  · intro i hi ha hb
    have hlo : ¬ q < x.getD 0 0 :=
      not_lt.mpr (le_trans (sorted_getD_le x hs 0 i (by omega) (by omega)) ha)
    have hhi : ¬ x.getD (x.length - 1) 0 < q :=
      not_lt.mpr (le_trans hb (sorted_getD_le x hs (i + 1) (x.length - 1) (by omega) (by omega)))
    simp only [linear_value, h0, h1, hlo, hhi, if_false]
    exact linear_interval_eq x y hlen hs i q hi ha hb

/-! ## The claims -/

/-- C1, counterexample: `linear_dddd(x=[0,1], y=[5], new_x=[0], new_y=[0,0])`,
where `y` is shorter than `x` and `new_y` longer than `new_x`, is not rejected:
the call returns `None` without an exception and the core routine is invoked. -/
theorem C1_mismatched_lengths_accepted :
    (linear_method linear mismatchedCall).ret = PyRet.None ∧
    (linear_method linear mismatchedCall).err = none ∧
    (linear_method linear mismatchedCall).trace.any Event.isCore = true ∧
    ¬ ((linear_method linear mismatchedCall).reportsError ∧
        (linear_method linear mismatchedCall).coreNotInvoked) := by
  refine ⟨rfl, rfl, rfl, ?_⟩
  rintro ⟨⟨h, _⟩, _⟩
  exact absurd h (by decide)

/-- C1, amended: for `linear_method`, `loginterp_method` and
`block_average_above_method`, a call that parses and whose four array
arguments convert is not rejected when the lengths of x and y differ, or those
of new_x and new_y: the entry point returns `None` without an exception after
one call of its core routine, whose sample count is the length of x and whose
query count is the length of new_x, so that a count differs from the length of
y or of new_y.  For `window_average_method` the claim stands as stated: every
call of it reports an error and invokes no core routine. -/
theorem C1_lengths_are_not_compared {D : Type} (cores : Cores D) (m : MethodId)
    (call : Call D) (py_x py_y py_new_x py_new_y : PyObj D) (x y new_x new_y : List D)
    (hm : m ≠ MethodId.window_average_method)
    (hp : PyArg_ParseTupleAndKeywords m.format kwlist call
      = Except.ok [Parsed.obj py_x, Parsed.obj py_y, Parsed.obj py_new_x, Parsed.obj py_new_y])
    (hx : PyArray_FROMANY py_x ArrayFlags.NPY_ARRAY_IN_ARRAY = some x)
    (hy : PyArray_FROMANY py_y ArrayFlags.NPY_ARRAY_IN_ARRAY = some y)
    (hnx : PyArray_FROMANY py_new_x ArrayFlags.NPY_ARRAY_IN_ARRAY = some new_x)
    (hny : PyArray_FROMANY py_new_y ArrayFlags.NPY_ARRAY_INOUT_ARRAY = some new_y)
    (hdiff : x.length ≠ y.length ∨ new_x.length ≠ new_y.length) :
    ((m.call cores call).ret = PyRet.None ∧ (m.call cores call).err = none ∧
      ∃ n k, (m.call cores call).trace.filter Event.isCore
          = [Event.core m.routine x y n new_x new_y k none] ∧
        n = x.length ∧ k = new_x.length ∧ (n ≠ y.length ∨ k ≠ new_y.length)) ∧
    ∀ c : Call D,
      (MethodId.window_average_method.call cores c).reportsError ∧
      (MethodId.window_average_method.call cores c).coreNotInvoked := by
  constructor
  · obtain ⟨res, hres⟩ := call_ok_three cores m call hm hp hx hy hnx hny
    rw [hres]
    refine ⟨rfl, rfl, x.length, new_x.length, ?_, rfl, rfl, hdiff⟩
    simp [call_core, Event.isCore, List.filter]
  · intro c
    obtain ⟨e, he⟩ := window_average_method_fails cores.window_average c
    simp only [MethodId.call, he]
    exact ⟨⟨rfl, rfl⟩, rfl, rfl⟩

/-- Witness for C1 (amended): the call of the counterexample, through the
`linear_dddd` entry; `linear` receives the sample count 2 with a `y` of
length 1. -/
theorem C1_lengths_are_not_compared_witness :
    (linear_method linear mismatchedCall).ret = PyRet.None ∧
    (linear_method linear mismatchedCall).err = none ∧
    ∃ n k, (linear_method linear mismatchedCall).trace.filter Event.isCore
        = [Event.core Routine.linear [0, 1] [5] n [0] [0, 0] k none] ∧
      n = 2 ∧ k = 1 ∧ (n ≠ 1 ∨ k ≠ 2) :=
  (C1_lengths_are_not_compared exampleCores MethodId.linear_method mismatchedCall
    (arrayObj [0, 1]) (arrayObj [5]) (arrayObj [0]) (arrayObj [0, 0])
    [0, 1] [5] [0] [0, 0] (by decide) rfl rfl rfl rfl rfl (Or.inl (by decide))).1

/-- C2: for each of the four entry points, when at least one of x, y, new_x,
new_y cannot be converted to a 1-D double array the entry point returns `NULL`
with an exception set, no core routine is invoked and nothing is stored in
new_y.  Stated for the code that follows the parse and for every call that
parses to these objects. -/
theorem C2_conversion_failure_all_or_nothing {D : Type} (cores : Cores D) (m : MethodId)
    (py_x py_y py_new_x py_new_y : PyObj D) (width : D)
    (h : PyArray_FROMANY py_x ArrayFlags.NPY_ARRAY_IN_ARRAY = none ∨
      PyArray_FROMANY py_y ArrayFlags.NPY_ARRAY_IN_ARRAY = none ∨
      PyArray_FROMANY py_new_x ArrayFlags.NPY_ARRAY_IN_ARRAY = none ∨
      PyArray_FROMANY py_new_y ArrayFlags.NPY_ARRAY_INOUT_ARRAY = none) :
    ((m.parsed cores py_x py_y py_new_x py_new_y width).reportsError ∧
      (m.parsed cores py_x py_y py_new_x py_new_y width).coreNotInvoked) ∧
    ∀ call : Call D,
      PyArg_ParseTupleAndKeywords m.format kwlist call
        = Except.ok (m.stored py_x py_y py_new_x py_new_y width) →
      (m.call cores call).reportsError ∧ (m.call cores call).coreNotInvoked := by
  have key : (m.parsed cores py_x py_y py_new_x py_new_y width).reportsError ∧
      (m.parsed cores py_x py_y py_new_x py_new_y width).coreNotInvoked := by
    rcases parsed_cases cores m py_x py_y py_new_x py_new_y width with
      ⟨p, _, _, h2, h3, _⟩ | ⟨x, y, new_x, new_y, hx, hy, hnx, hny⟩
    · exact ⟨h2, h3⟩
    · simp [hx, hy, hnx, hny] at h
  refine ⟨key, ?_⟩
  intro call hp
  rw [call_of_parse cores m call py_x py_y py_new_x py_new_y width hp]
  exact key

/-- Witness for C2: `linear_dddd([0, 1], 3.0, [0], [0])`, whose `y` is not an
array. -/
theorem C2_conversion_failure_all_or_nothing_witness :
    (linear_method linear badYCall).reportsError ∧
    (linear_method linear badYCall).coreNotInvoked :=
  (C2_conversion_failure_all_or_nothing exampleCores MethodId.linear_method
    (arrayObj [0, 1]) (floatObj 3) (arrayObj [0]) (arrayObj [0]) 0
    (Or.inr (Or.inl rfl))).2 badYCall rfl

/-- C3: for each of the four entry points, when parsing succeeded and some
array argument is rejected, the entry point returns `NULL` with the
`ValueError` "<name> must be a 1-D array of floats" for the first rejected
parameter in the order x, y, new_x, new_y, and no later parameter is handed to
`PyArray_FROMANY`. -/
theorem C3_first_rejected_parameter_named {D : Type} (cores : Cores D) (m : MethodId)
    (py_x py_y py_new_x py_new_y : PyObj D) (width : D) (p : Param)
    (h : firstRejected py_x py_y py_new_x py_new_y = some p) :
    (m.parsed cores py_x py_y py_new_x py_new_y width).rejects p ∧
    ∀ call : Call D,
      PyArg_ParseTupleAndKeywords m.format kwlist call
        = Except.ok (m.stored py_x py_y py_new_x py_new_y width) →
      (m.call cores call).rejects p := by
  have key : (m.parsed cores py_x py_y py_new_x py_new_y width).rejects p := by
    rcases parsed_cases cores m py_x py_y py_new_x py_new_y width with
      ⟨q, hq, h1, _⟩ | ⟨x, y, new_x, new_y, hx, hy, hnx, hny⟩
    · rw [h] at hq
      cases hq
      exact h1
    · rw [firstRejected_none_of_ok hx hy hnx hny] at h
      cases h
  refine ⟨key, ?_⟩
  intro call hp
  rw [call_of_parse cores m call py_x py_y py_new_x py_new_y width hp]
  exact key

/-- Witness for C3: in `linear_dddd([0, 1], 3.0, [0], [0])` the first rejected
parameter is `y`; the error is "y must be a 1-D array of floats" and `new_x`,
`new_y` are not examined. -/
theorem C3_first_rejected_parameter_named_witness :
    (linear_method linear badYCall).err
      = some (PyErr.setString Exc.ValueError "y must be a 1-D array of floats") ∧
    (linear_method linear badYCall).trace.any (Event.isFromAny Param.new_x) = false ∧
    (linear_method linear badYCall).trace.any (Event.isFromAny Param.new_y) = false :=
  have h := (C3_first_rejected_parameter_named exampleCores MethodId.linear_method
    (arrayObj [0, 1]) (floatObj 3) (arrayObj [0]) (arrayObj [0]) 0 Param.y rfl).2
    badYCall rfl
  ⟨h.2.1, h.2.2 Param.new_x (by decide), h.2.2 Param.new_y (by decide)⟩

/-- C4, counterexample: `linear_dddd(x=[], y=[], new_x=[1], new_y=[0])`, a call
without samples, is not rejected: the core routine is invoked with sample
count 0 and the call returns `None` without an exception. -/
theorem C4_empty_samples_accepted :
    (linear_method linear emptyCall).ret = PyRet.None ∧
    (linear_method linear emptyCall).err = none ∧
    (linear_method linear emptyCall).trace.filter Event.isCore
      = [Event.core Routine.linear [] [] 0 [1] [0] 1 none] ∧
    ¬ ((linear_method linear emptyCall).reportsError ∧
        (linear_method linear emptyCall).coreNotInvoked) := by
  refine ⟨rfl, rfl, rfl, ?_⟩
  rintro ⟨⟨h, _⟩, _⟩
  exact absurd h (by decide)

/-- C4, amended: for `linear_method`, `loginterp_method` and
`block_average_above_method`, a call that parses, in which x is an empty 1-D
double array (n = 0) and the other three arguments convert, is not rejected:
the entry point makes one call of its core routine, with sample count 0, and
returns `None` without an exception.  For `window_average_method` the claim
stands as stated: every call of it reports an error and invokes no core
routine. -/
theorem C4_no_emptiness_check {D : Type} (cores : Cores D) (m : MethodId)
    (call : Call D) (py_x py_y py_new_x py_new_y : PyObj D) (y new_x new_y : List D)
    (hm : m ≠ MethodId.window_average_method)
    (hp : PyArg_ParseTupleAndKeywords m.format kwlist call
      = Except.ok [Parsed.obj py_x, Parsed.obj py_y, Parsed.obj py_new_x, Parsed.obj py_new_y])
    (hx : PyArray_FROMANY py_x ArrayFlags.NPY_ARRAY_IN_ARRAY = some [])
    (hy : PyArray_FROMANY py_y ArrayFlags.NPY_ARRAY_IN_ARRAY = some y)
    (hnx : PyArray_FROMANY py_new_x ArrayFlags.NPY_ARRAY_IN_ARRAY = some new_x)
    (hny : PyArray_FROMANY py_new_y ArrayFlags.NPY_ARRAY_INOUT_ARRAY = some new_y) :
    ((m.call cores call).ret = PyRet.None ∧ (m.call cores call).err = none ∧
      (m.call cores call).trace.filter Event.isCore
        = [Event.core m.routine [] y 0 new_x new_y new_x.length none]) ∧
    ∀ c : Call D,
      (MethodId.window_average_method.call cores c).reportsError ∧
      (MethodId.window_average_method.call cores c).coreNotInvoked := by
  constructor
  · obtain ⟨res, hres⟩ := call_ok_three cores m call hm hp hx hy hnx hny
    rw [hres]
    refine ⟨rfl, rfl, ?_⟩
    simp [call_core, Event.isCore, List.filter]
  · intro c
    obtain ⟨e, he⟩ := window_average_method_fails cores.window_average c
    simp only [MethodId.call, he]
    exact ⟨⟨rfl, rfl⟩, rfl, rfl⟩

/-- Witness for C4 (amended): the call of the counterexample, through the
`linear_dddd` entry. -/
theorem C4_no_emptiness_check_witness :
    (linear_method linear emptyCall).ret = PyRet.None ∧
    (linear_method linear emptyCall).err = none ∧
    (linear_method linear emptyCall).trace.filter Event.isCore
      = [Event.core Routine.linear [] [] 0 [1] [0] 1 none] :=
  (C4_no_emptiness_check exampleCores MethodId.linear_method emptyCall
    (arrayObj []) (arrayObj []) (arrayObj [1]) (arrayObj [0]) [] [1] [0]
    (by decide) rfl rfl rfl rfl rfl).1

/-- C7: for strictly increasing x with n ≥ 2 samples (and y, new_y of the
lengths of x, new_x), the linear resampler reached through `linear_method`
writes into slot j, for the query q = new_x[j]: y_0 when q < x_0; y_{n-1} when
q > x_{n-1}; and y_i + (y_{i+1}-y_i)*(q-x_i)/(x_{i+1}-x_i) for every interval
with x_i ≤ q ≤ x_{i+1}, one of which exists whenever x_0 ≤ q ≤ x_{n-1}.  In
particular x=[0,1,2,3], y=[0,10,20,30], new_x=[-1,0.5,1.5,3.5] yields
[0,5,15,30].  The routine `linear` is the model written from the spec. -/
theorem C7_linear_resampler_values (call : Call ℚ) (py_x py_y py_new_x py_new_y : PyObj ℚ)
    (x y new_x new_y : List ℚ)
    (hparse : PyArg_ParseTupleAndKeywords linear_method_format kwlist call
      = Except.ok [Parsed.obj py_x, Parsed.obj py_y, Parsed.obj py_new_x, Parsed.obj py_new_y])
    (hx : PyArray_FROMANY py_x ArrayFlags.NPY_ARRAY_IN_ARRAY = some x)
    (hy : PyArray_FROMANY py_y ArrayFlags.NPY_ARRAY_IN_ARRAY = some y)
    (hnx : PyArray_FROMANY py_new_x ArrayFlags.NPY_ARRAY_IN_ARRAY = some new_x)
    (hny : PyArray_FROMANY py_new_y ArrayFlags.NPY_ARRAY_INOUT_ARRAY = some new_y)
    (hlen : y.length = x.length) (hn : 2 ≤ x.length) (hs : x.Pairwise (· < ·))
    (hm : new_y.length = new_x.length) :
    (∃ out, (linear_method linear call).ret = PyRet.None ∧
      (linear_method linear call).out = some out ∧ out.length = new_x.length ∧
      ∀ j, j < new_x.length →
        (new_x.getD j 0 < x.getD 0 0 → out.getD j 0 = y.getD 0 0) ∧
        (x.getD (x.length - 1) 0 < new_x.getD j 0 →
          out.getD j 0 = y.getD (x.length - 1) 0) ∧
        (∀ i, i + 1 < x.length → x.getD i 0 ≤ new_x.getD j 0 →
          new_x.getD j 0 ≤ x.getD (i + 1) 0 →
          out.getD j 0 = y.getD i 0 + (y.getD (i + 1) 0 - y.getD i 0)
            * (new_x.getD j 0 - x.getD i 0) / (x.getD (i + 1) 0 - x.getD i 0)) ∧
        (x.getD 0 0 ≤ new_x.getD j 0 → new_x.getD j 0 ≤ x.getD (x.length - 1) 0 →
          ∃ i, i + 1 < x.length ∧ x.getD i 0 ≤ new_x.getD j 0 ∧
            new_x.getD j 0 ≤ x.getD (i + 1) 0)) ∧
    (linear_method linear scenario1).out = some [0, 5, 15, 30] := by
  constructor
  · refine ⟨linear x y x.length new_x new_y new_x.length, ?_, ?_, ?_, ?_⟩
    · simp only [linear_method, hparse, linear_method_parsed,
        convert_arrays_ok hx hy hnx hny, call_core]
    · simp only [linear_method, hparse, linear_method_parsed,
        convert_arrays_ok hx hy hnx hny, call_core]
    · exact linear_length x y x.length new_x new_y new_x.length (le_of_eq hm)
    · intro j hj
      have hty : y.take x.length = y := List.take_of_length_le (le_of_eq hlen)
      obtain ⟨h1, h2, h3⟩ := linear_value_spec x y (new_x.getD j 0) hlen hn hs
      rw [linear_getD x y x.length new_x new_y new_x.length j hj, List.take_length, hty]
      refine ⟨?_, ?_, ?_, ?_⟩
      · intro hq
        rw [h1 hq, Option.getD_some]
      · intro hq
        rw [h2 hq, Option.getD_some]
      · intro i hi ha hb
        rw [h3 i hi ha hb, Option.getD_some]
      · intro ha hb
        exact exists_bracket x hn (new_x.getD j 0) ha hb
  · have hp : PyArg_ParseTupleAndKeywords linear_method_format kwlist scenario1
        = Except.ok [Parsed.obj (arrayObj [0, 1, 2, 3]), Parsed.obj (arrayObj [0, 10, 20, 30]),
            Parsed.obj (arrayObj [-1, 1/2, 3/2, 7/2]), Parsed.obj (arrayObj [0, 0, 0, 0])] := rfl
    simp only [linear_method, hp]
    simp [linear_method_parsed, convert_arrays, PyArray_FROMANY, arrayObj, call_core, linear,
      List.range, List.range.loop, linear_value, linear_interval]
    norm_num

/-- Witness for C7: scenario 1; the query 0.5 lies in the first interval and
its slot holds 0 + (10 - 0) * (0.5 - 0) / (1 - 0). -/
theorem C7_linear_resampler_values_witness :
    ∃ out, (linear_method linear scenario1).out = some out ∧ out.length = 4 ∧
      out.getD 1 0 = 0 + (10 - 0) * (1/2 - 0) / (1 - 0) := by
  obtain ⟨out, _, h1, h2, h3⟩ := (C7_linear_resampler_values scenario1
    (arrayObj [0, 1, 2, 3]) (arrayObj [0, 10, 20, 30]) (arrayObj [-1, 1/2, 3/2, 7/2])
    (arrayObj [0, 0, 0, 0]) [0, 1, 2, 3] [0, 10, 20, 30] [-1, 1/2, 3/2, 7/2] [0, 0, 0, 0]
    rfl rfl rfl rfl rfl rfl (by decide) (by norm_num) rfl).1
  refine ⟨out, h1, h2, ?_⟩
  have h := (h3 1 (by decide)).2.2.1 0 (by decide) (by norm_num) (by norm_num)
  simpa using h

/-- C8: for each of the four entry points, when parsing and the four
conversions succeed the entry point invokes its own core routine
(`linear_method` -> `linear`, `loginterp_method` -> `loginterp`,
`window_average_method` -> `window_average`, `block_average_above_method` ->
`block_average_above`) exactly once, with the length of x as sample count and
the length of new_x as query count whatever the lengths of y and new_y, and
returns `None`. -/
theorem C8_matching_core_invoked_once {D : Type} (cores : Cores D) (m : MethodId)
    (py_x py_y py_new_x py_new_y : PyObj D) (width : D) (x y new_x new_y : List D)
    (hx : PyArray_FROMANY py_x ArrayFlags.NPY_ARRAY_IN_ARRAY = some x)
    (hy : PyArray_FROMANY py_y ArrayFlags.NPY_ARRAY_IN_ARRAY = some y)
    (hnx : PyArray_FROMANY py_new_x ArrayFlags.NPY_ARRAY_IN_ARRAY = some new_x)
    (hny : PyArray_FROMANY py_new_y ArrayFlags.NPY_ARRAY_INOUT_ARRAY = some new_y) :
    (m.parsed cores py_x py_y py_new_x py_new_y width).invokedOnce m.routine x y new_x new_y
      (m.routine.width width)
      (cores.result m.routine x y x.length new_x new_y new_x.length width) ∧
    ∀ call : Call D,
      PyArg_ParseTupleAndKeywords m.format kwlist call
        = Except.ok (m.stored py_x py_y py_new_x py_new_y width) →
      (m.call cores call).invokedOnce m.routine x y new_x new_y (m.routine.width width)
        (cores.result m.routine x y x.length new_x new_y new_x.length width) := by
  have key : (m.parsed cores py_x py_y py_new_x py_new_y width).invokedOnce m.routine
      x y new_x new_y (m.routine.width width)
      (cores.result m.routine x y x.length new_x new_y new_x.length width) := by
    rw [parsed_ok cores m width hx hy hnx hny]
    simp [Outcome.invokedOnce, call_core, Event.isCore, List.filter]
  refine ⟨key, ?_⟩
  intro call hp
  rw [call_of_parse cores m call py_x py_y py_new_x py_new_y width hp]
  exact key

/-- Witness for C8: scenario 1 through the `linear_dddd` entry; the routine is
`linear` with n = 4 and m = 4. -/
theorem C8_matching_core_invoked_once_witness :
    (linear_method linear scenario1).invokedOnce Routine.linear [0, 1, 2, 3] [0, 10, 20, 30]
      [-1, 1/2, 3/2, 7/2] [0, 0, 0, 0] none
      (linear [0, 1, 2, 3] [0, 10, 20, 30] 4 [-1, 1/2, 3/2, 7/2] [0, 0, 0, 0] 4) :=
  (C8_matching_core_invoked_once exampleCores MethodId.linear_method
    (arrayObj [0, 1, 2, 3]) (arrayObj [0, 10, 20, 30]) (arrayObj [-1, 1/2, 3/2, 7/2])
    (arrayObj [0, 0, 0, 0]) 0 [0, 1, 2, 3] [0, 10, 20, 30] [-1, 1/2, 3/2, 7/2] [0, 0, 0, 0]
    rfl rfl rfl rfl).2 scenario1 rfl

/-- C9: for each of the four entry points and every path after argument
parsing (success, or failure at the conversion of x, y, new_x or new_y), the
references released are exactly those obtained: `arr_p` is released once, after
its conversion, when `PyArray_FROMANY` succeeded on the object of `p` and on
those of all parameters before it, and is not released otherwise.  Stated for
the code that follows the parse and for every call that parses to these
objects; a call whose parsing fails converts and releases nothing. -/
theorem C9_references_released_exactly_once {D : Type} (cores : Cores D) (m : MethodId) :
    (∀ (py_x py_y py_new_x py_new_y : PyObj D) (width : D),
      (m.parsed cores py_x py_y py_new_x py_new_y width).releasesExactly
        (obtained py_x py_y py_new_x py_new_y) ∧
      (m.parsed cores py_x py_y py_new_x py_new_y width).balanced) ∧
    (∀ (call : Call D) (py_x py_y py_new_x py_new_y : PyObj D) (width : D),
      PyArg_ParseTupleAndKeywords m.format kwlist call
        = Except.ok (m.stored py_x py_y py_new_x py_new_y width) →
      (m.call cores call).releasesExactly (obtained py_x py_y py_new_x py_new_y)) ∧
    (∀ (call : Call D) (e : PyErr),
      PyArg_ParseTupleAndKeywords m.format kwlist call = Except.error e →
      (m.call cores call).trace = []) ∧
    ∀ call : Call D, (m.call cores call).balanced := by
  refine ⟨?_, ?_, ?_, ?_⟩
  · intro py_x py_y py_new_x py_new_y width
    refine ⟨parsed_releases cores m py_x py_y py_new_x py_new_y width, ?_⟩
    rcases parsed_cases cores m py_x py_y py_new_x py_new_y width with
      ⟨p, _, _, _, _, h4⟩ | ⟨x, y, new_x, new_y, hx, hy, hnx, hny⟩
    · exact h4
    · rw [parsed_ok cores m width hx hy hnx hny]
      exact call_core_balanced _ _ _ _ _ _ _
  · intro call py_x py_y py_new_x py_new_y width hp
    rw [call_of_parse cores m call py_x py_y py_new_x py_new_y width hp]
    exact parsed_releases cores m py_x py_y py_new_x py_new_y width
  · intro call e he
    rw [call_parse_error cores m call e he]
    rfl
  · intro call
    rcases call_cases cores m call with ⟨e, he⟩ | ⟨py_x, py_y, py_new_x, py_new_y, h | h⟩
    · rw [he]
      exact parse_failed_balanced e
    · obtain ⟨_, _, _, _, _, hb⟩ := convert_arrays_error h
      exact hb
    · obtain ⟨x, y, new_x, new_y, r, w, res, _, h2⟩ := h
      rw [h2]
      exact call_core_balanced _ _ _ _ _ _ _

/-- Witness for C9: in `linear_dddd([0, 1], 3.0, [0], [0])` the conversion of
`x` succeeds and that of `y` fails; `arr_x` is released once and `arr_y`,
`arr_new_x`, `arr_new_y` are not released. -/
theorem C9_references_released_exactly_once_witness :
    (linear_method linear badYCall).trace.countP (Event.isRelease Param.x) = 1 ∧
    (linear_method linear badYCall).trace.countP (Event.isRelease Param.y) = 0 ∧
    (linear_method linear badYCall).trace.countP (Event.isRelease Param.new_x) = 0 ∧
    (linear_method linear badYCall).trace.countP (Event.isRelease Param.new_y) = 0 :=
  have h := (C9_references_released_exactly_once exampleCores MethodId.linear_method).2.1
    badYCall (arrayObj [0, 1]) (floatObj 3) (arrayObj [0]) (arrayObj [0]) 0 rfl
  ⟨(h Param.x).2.1, (h Param.y).2.1, (h Param.new_x).2.1, (h Param.new_y).2.1⟩

/-- C5: the keyword list of `window_average_method` has four names and its
format string five units, so the parser rejects the call
`window_average_ddddd(x, y, new_x, new_y, 2.0)` of scenario 3 (four arrays and
a finite width), given positionally or with `width` by keyword: `NULL` is
returned with a `TypeError` and `window_average` is not invoked.  No call of
the entry point gets past the parser. -/
theorem C5_window_average_never_parses :
    kwlist.length = 4 ∧ (formatUnits window_average_method_format).length = 5 ∧
    (window_average_method untouchedW scenario3).ret = PyRet.NULL ∧
    (window_average_method untouchedW scenario3).err
      = some (PyErr.parse Exc.TypeError "loginterp_dddd") ∧
    (window_average_method untouchedW scenario3).coreNotInvoked ∧
    (window_average_method untouchedW scenario3kw).ret = PyRet.NULL ∧
    (window_average_method untouchedW scenario3kw).err
      = some (PyErr.parse Exc.TypeError "loginterp_dddd") ∧
    (window_average_method untouchedW scenario3kw).coreNotInvoked ∧
    ∀ (D : Type) (window_average : CoreFnW D) (call : Call D),
      (window_average_method window_average call).reportsError ∧
      (window_average_method window_average call).coreNotInvoked := by
  refine ⟨rfl, by decide, rfl, rfl, ⟨rfl, rfl⟩, rfl, rfl, ⟨rfl, rfl⟩, ?_⟩
  intro D window_average call
  obtain ⟨e, he⟩ := window_average_method_fails window_average call
  rw [he]
  exact ⟨⟨rfl, rfl⟩, rfl, rfl⟩

/-- C6: every call of `window_average_method` whose width is NaN or infinite
reports an error and `window_average` is not invoked, so no slot of new_y is
written.  The error is the `TypeError` of the argument parser, raised before any
conversion: the keyword list has no entry for the width, so a call that
supplies one, as fifth positional argument or by keyword, is rejected whatever
its value. -/
theorem C6_non_finite_width_rejected (window_average : CoreFnW Double)
    (call : Call Double) (h : call.widthNotFinite) :
    (window_average_method window_average call).reportsError ∧
    (window_average_method window_average call).err
      = some (PyErr.parse Exc.TypeError "loginterp_dddd") ∧
    (window_average_method window_average call).trace = [] ∧
    (window_average_method window_average call).coreNotInvoked := by
  obtain ⟨o, w, hw, _, _⟩ := h
  have hp := window_average_width_TypeError call o hw
  simp only [window_average_method, hp]
  exact ⟨⟨rfl, rfl⟩, rfl, rfl, rfl, rfl⟩

/-- Witness for C6: `window_average_ddddd([0.0, 1.0], [1.0, 1.0], [0.0], [0.0],
nan)`. -/
theorem C6_non_finite_width_rejected_witness :
    nanValue.isNaN = true ∧
    (window_average_method untouchedW nanWidthCall).reportsError ∧
    (window_average_method untouchedW nanWidthCall).err
      = some (PyErr.parse Exc.TypeError "loginterp_dddd") ∧
    (window_average_method untouchedW nanWidthCall).trace = [] ∧
    (window_average_method untouchedW nanWidthCall).coreNotInvoked :=
  ⟨by decide, C6_non_finite_width_rejected untouchedW nanWidthCall
    ⟨floatObj nanValue, nanValue, rfl, rfl, Or.inl (by decide)⟩⟩

/-- C10: the function name after `:` in the format string equals the
registered name for `linear_method` and `loginterp_method` only; the format
strings of `window_average_method` and `block_average_above_method` both carry
`loginterp_dddd`, so `block_average_above_dddd()` fails with a parser error
that names `loginterp_dddd`. -/
theorem C10_format_names_of_the_table :
    interpolate_methods.map (fun e => (e.1, formatFname e.2.format))
      = [("linear_dddd", "linear_dddd"), ("loginterp_dddd", "loginterp_dddd"),
          ("window_average_ddddd", "loginterp_dddd"),
          ("block_average_above_dddd", "loginterp_dddd")] ∧
    (block_average_above_method untouched noArgs).err
      = some (PyErr.parse Exc.TypeError "loginterp_dddd") ∧
    (window_average_method untouchedW noArgs).err
      = some (PyErr.parse Exc.TypeError "loginterp_dddd") := by
  refine ⟨by decide, rfl, rfl⟩

end Interpolate
